import Mathlib

/-
Verification of the asynchronous video-generation client from the notebook
`02_image_to_video_generation.ipynb` (Amazon Nova Reel sample).

The visible source is the notebook's submission cell: it builds `model_input`,
calls `start_async_invoke` inside a try/except, extracts `invocationArn`, saves
the invocation info, and on any exception logs it via `logger.error` without
re-raising.  The polling/download helper (`amazon_video_util`) is not part of
the visible source, so the Status Poller, Artifact Fetcher and Invocation
Ledger are modelled from the specification's contracts and settled against
those models.
-/

namespace NovaReel

/-- Job status enum from the data model: IN_PROGRESS, COMPLETED, FAILED. -/
inductive Status where
  | inProgress
  | completed
  | failed
  deriving DecidableEq, Repr

/-- A status is terminal when it is COMPLETED or FAILED. -/
def Status.isTerminal : Status → Bool
  | Status.inProgress => false
  | Status.completed => true
  | Status.failed => true

/-- The image object of the request: format "png" together with the Base64 image
bytes, as built in the notebook's model_input. -/
structure ImageSource where
  format : String
  sourceBytes : String
  deriving DecidableEq, Repr

/-- The textToVideoParams object of the request: prompt text plus input images. -/
structure TextToVideoParams where
  text : String
  images : List ImageSource
  deriving DecidableEq, Repr

/-- The videoGenerationConfig object of the request. -/
structure VideoGenerationConfig where
  durationSeconds : Nat
  fps : Nat
  dimension : String
  seed : Int
  deriving DecidableEq, Repr

/-- The model_input request body sent to start_async_invoke. -/
structure ModelInput where
  taskType : String
  textToVideoParams : TextToVideoParams
  videoGenerationConfig : VideoGenerationConfig
  deriving DecidableEq, Repr

/-- Construction of model_input exactly as in the notebook cell: fixed task type
"TEXT_VIDEO", the caller's prompt text, one png image, and the fixed generation
parameters durationSeconds 6, fps 24, dimension "1280x720" with the drawn seed. -/
def mkModelInput (videoPrompt imageBase64 : String) (seed : Int) : ModelInput :=
  { taskType := "TEXT_VIDEO"
    textToVideoParams :=
      { text := videoPrompt
        images := [{ format := "png", sourceBytes := imageBase64 }] }
    videoGenerationConfig :=
      { durationSeconds := 6
        fps := 24
        dimension := "1280x720"
        seed := seed } }

/-- Python's random.randint(a, b) as called by the notebook: a possible result is
any integer n with a ≤ n and n ≤ b, both endpoints included. -/
def randintMem (a b n : Int) : Prop := a ≤ n ∧ n ≤ b

instance (a b n : Int) : Decidable (randintMem a b n) := by
  unfold randintMem
  infer_instance

/-- The possible seeds drawn by the notebook: random.randint(0, 2147483648). -/
def possibleSeed (n : Int) : Prop := randintMem 0 2147483648 n

instance (n : Int) : Decidable (possibleSeed n) := by
  unfold possibleSeed
  infer_instance

/-- The response of start_async_invoke, carrying the invocationArn job handle. -/
structure Invocation where
  invocationArn : String
  deriving DecidableEq, Repr

/-- A log line emitted through the notebook's logger. -/
inductive LogEntry where
  | info (msg : String)
  | error (msg : String)
  deriving DecidableEq, Repr

/-- Observable outcome of one execution of the submission cell: the value bound
to invocation_arn (if any), how many times the remote service was called, the
emitted log, and whether an exception escaped the cell. -/
structure CellOutcome where
  invocationArn : Option String
  remoteCalls : Nat
  log : List LogEntry
  raised : Bool
  deriving DecidableEq, Repr

/-- The notebook's submission cell: builds model_input with the given prompt,
image bytes and seed, calls start_async_invoke (the `remote` parameter) inside a
try/except, on success binds invocation_arn, logs the response and calls
save_invocation_info (the `ledger` parameter); any exception — from the remote
call or from saving — is caught and logged via logger.error, never re-raised.
There is no client-side validation of the prompt before the remote call. -/
def submitCell (remote : ModelInput → Except String Invocation)
    (ledger : Invocation → ModelInput → Except String Unit)
    (videoPrompt imageBase64 : String) (seed : Int) : CellOutcome :=
  match remote (mkModelInput videoPrompt imageBase64 seed) with
  | Except.ok inv =>
    match ledger inv (mkModelInput videoPrompt imageBase64 seed) with
    | Except.ok _ =>
      { invocationArn := some inv.invocationArn
        remoteCalls := 1
        log := [LogEntry.info "Response:", LogEntry.info inv.invocationArn]
        raised := false }
    | Except.error e =>
      { invocationArn := some inv.invocationArn
        remoteCalls := 1
        log := [LogEntry.info "Response:", LogEntry.info inv.invocationArn, LogEntry.error e]
        raised := false }
  | Except.error e =>
    { invocationArn := none
      remoteCalls := 1
      log := [LogEntry.error e]
      raised := false }

/-- A submitted Job as in the data model: opaque handle plus status. -/
structure Job where
  handle : String
  status : Status
  deriving DecidableEq, Repr

/-- Result of the Job Submitter: a Job, or a SubmissionError with its cause. -/
inductive SubmitResult where
  | job (j : Job)
  | submissionError (cause : String)
  deriving DecidableEq, Repr

/-- Modelled from the spec: the Job Submitter's Job/status bookkeeping, which is
not in the visible source (the cell only extracts invocationArn).  On a
successful start_async_invoke it returns a Job whose handle is the returned
invocationArn with status IN_PROGRESS; on failure it fails with SubmissionError
carrying the underlying cause. -/
def jobSubmitter (remote : ModelInput → Except String Invocation)
    (mi : ModelInput) : SubmitResult :=
  match remote mi with
  | Except.ok inv =>
    SubmitResult.job { handle := inv.invocationArn, status := Status.inProgress }
  | Except.error e => SubmitResult.submissionError e

/-- One value of the Status Poller's sequence: status, optional failure reason,
and the output URI (present only when COMPLETED). -/
structure PollResult where
  status : Status
  failureReason : Option String
  outputUri : Option String
  deriving DecidableEq, Repr

/-- Modelled from the spec: the Job state machine — IN_PROGRESS may stay
IN_PROGRESS or move to COMPLETED or FAILED; no transitions out of terminal
states. -/
def jobStep : Status → Status → Bool
  | Status.inProgress, _ => true
  | Status.completed, Status.completed => true
  | Status.failed, Status.failed => true
  | _, _ => false

/-- A status trace of one remote job is valid when every consecutive pair of
observations is allowed by the job state machine. -/
def ValidTrace (tr : Nat → Status) : Prop :=
  ∀ n, jobStep (tr n) (tr (n + 1)) = true

/-- Modelled from the spec: the PollResult sequence the Status Poller produces
for one handle — it queries the remote status at rounds k, k + 1, ... and the
sequence is exhausted right after the first terminal result; the fuel argument
bounds the number of rounds (the caller-supplied timeout). -/
def pollSequence (query : Nat → PollResult) : Nat → Nat → List PollResult
  | 0, _ => []
  | Nat.succ fuel, k =>
    if (query k).status.isTerminal then [query k]
    else query k :: pollSequence query fuel (k + 1)

/-- Modelled from the spec: bounded internal retry of transient query errors —
attempts i, i + 1, ... are tried until one succeeds; when the remaining attempt
budget is exhausted a PollError is surfaced. -/
def retryFrom (attempts : Nat → Except String PollResult) :
    Nat → Nat → Except String PollResult
  | 0, _ => Except.error "PollError"
  | Nat.succ fuel, i =>
    match attempts i with
    | Except.ok r => Except.ok r
    | Except.error _ => retryFrom attempts fuel (i + 1)

/-- Modelled from the spec: one polling round, retrying transient failures
internally up to `bound` attempts before surfacing a PollError. -/
def retryQuery (attempts : Nat → Except String PollResult) (bound : Nat) :
    Except String PollResult :=
  retryFrom attempts bound 0

/-- Outcome of monitor_and_download_video: the local file path on success, the
reported reason on a FAILED job, a surfaced PollError, or a FetchError. -/
inductive MonitorOutcome where
  | downloaded (localPath : String)
  | generationFailed (reason : Option String)
  | pollError (e : String)
  | fetchError (e : String)
  deriving DecidableEq, Repr

/-- Modelled from the spec: monitor_and_download_video — poll each round with
bounded internal retry until a terminal status; a FAILED job is reported as a
valid terminal value carrying its failure reason, never raised, and the
Artifact Fetcher is not invoked for it; a COMPLETED job's output URI is fetched
exactly once.  The second component counts Artifact Fetcher invocations. -/
def monitorAndDownload (poll : Nat → Nat → Except String PollResult)
    (bound : Nat) (fetch : String → Except String String) :
    Nat → Nat → MonitorOutcome × Nat
  | 0, _ => (MonitorOutcome.pollError "timeout", 0)
  | Nat.succ fuel, k =>
    match retryQuery (poll k) bound with
    | Except.error e => (MonitorOutcome.pollError e, 0)
    | Except.ok r =>
      match r.status with
      | Status.inProgress => monitorAndDownload poll bound fetch fuel (k + 1)
      | Status.failed => (MonitorOutcome.generationFailed r.failureReason, 0)
      | Status.completed =>
        match r.outputUri with
        | none => (MonitorOutcome.fetchError "missing output location", 0)
        | some uri =>
          match fetch uri with
          | Except.ok p => (MonitorOutcome.downloaded p, 1)
          | Except.error e => (MonitorOutcome.fetchError e, 1)

/-- An observable filesystem state during a fetch: the temporary file's bytes
and the destination path's content (none when the file is absent). -/
structure FsState where
  temp : List Nat
  dest : Option (List Nat)
  deriving DecidableEq, Repr

/-- Modelled from the spec: streaming the artifact chunk by chunk into the
temporary file; each write yields one more observable state, and the
destination is untouched. -/
def writeChunks (chunks : List (List Nat)) (st : FsState) : List FsState :=
  match chunks with
  | [] => []
  | c :: rest =>
    let st2 : FsState := { temp := st.temp ++ c, dest := st.dest }
    st2 :: writeChunks rest st2

/-- Modelled from the spec: the Artifact Fetcher's observable filesystem states.
The artifact bytes are streamed into a temporary file and the temporary file is
renamed onto the destination path only after the whole transfer completes, so
the destination is atomically visible.  A missing remote object or an
unwritable local path leaves the destination absent; an interruption after i
chunks stops the stream with the destination still absent. -/
def fetchStates (remoteObject : Option (List (List Nat))) (writable : Bool)
    (interruptAfter : Option Nat) : List FsState :=
  let st0 : FsState := { temp := [], dest := none }
  match remoteObject with
  | none => [st0]
  | some chunks =>
    if writable = false then [st0]
    else
      match interruptAfter with
      | some i =>
        if i < chunks.length then st0 :: writeChunks (chunks.take i) st0
        else st0 :: writeChunks chunks st0 ++ [{ temp := [], dest := some chunks.flatten }]
      | none => st0 :: writeChunks chunks st0 ++ [{ temp := [], dest := some chunks.flatten }]

/-- Modelled from the spec: the Artifact Fetcher's result — FetchError when the
remote object is missing, the local path is unwritable or the transfer is
interrupted; otherwise the full artifact bytes. -/
def fetchResult (remoteObject : Option (List (List Nat))) (writable : Bool)
    (interruptAfter : Option Nat) : Except String (List Nat) :=
  match remoteObject with
  | none => Except.error "FetchError: missing remote object"
  | some chunks =>
    if writable = false then Except.error "FetchError: unwritable local path"
    else
      match interruptAfter with
      | some i =>
        if i < chunks.length then Except.error "FetchError: transfer interrupted"
        else Except.ok chunks.flatten
      | none => Except.ok chunks.flatten

/-- Modelled from the spec: the Fetcher does not retry transfers automatically —
every fetch is exactly one transfer attempt, whatever the environment. -/
def fetchAttempts (_remoteObject : Option (List (List Nat))) (_writable : Bool)
    (_interruptAfter : Option Nat) : Nat := 1

/-- A persisted Invocation Ledger entry: the job handle it is keyed by and the
recorded payload (request parameters, timestamps, final status when known). -/
structure LedgerEntry where
  handle : String
  payload : String
  deriving DecidableEq, Repr

/-- Modelled from the spec: Ledger record — appends a submission entry to the
append-only log. -/
def recordEntry (log : List LedgerEntry) (e : LedgerEntry) : List LedgerEntry :=
  log ++ [e]

/-- Modelled from the spec: Ledger update — appends a completion entry for the
handle; nothing is deleted. -/
def updateEntry (log : List LedgerEntry) (h : String) (finalPayload : String) :
    List LedgerEntry :=
  log ++ [{ handle := h, payload := finalPayload }]

/-- Modelled from the spec: lookup by handle — the most recently appended entry
keyed by that handle. -/
def lookupEntry (log : List LedgerEntry) (h : String) : Option LedgerEntry :=
  log.reverse.find? (fun e => e.handle == h)

/-! Concrete stubs used by witnesses and counterexamples. -/

/-- A remote service that accepts every request and returns the handle "arn-123". -/
def remoteOkStub : ModelInput → Except String Invocation :=
  fun _ => Except.ok { invocationArn := "arn-123" }

/-- A remote service whose submission call always fails in transport. -/
def remoteFailStub : ModelInput → Except String Invocation :=
  fun _ => Except.error "transport failure"

/-- A save_invocation_info that always succeeds. -/
def ledgerOkStub : Invocation → ModelInput → Except String Unit :=
  fun _ _ => Except.ok ()

/-- A save_invocation_info that always fails. -/
def ledgerFailStub : Invocation → ModelInput → Except String Unit :=
  fun _ _ => Except.error "disk full"

/-- A 600-character prompt, exceeding the documented 512-character bound. -/
def prompt600 : String := String.mk (List.replicate 600 'a')

/-- A request built from the notebook's example prompt. -/
def miStub : ModelInput := mkModelInput "dolly forward" "imgbytes" 42

/-! Theorems. -/

/-- C9: Ledger record followed immediately by a lookup by that entry's handle
returns the recorded entry unchanged. -/
theorem record_then_lookup_id (log : List LedgerEntry) (e : LedgerEntry) :
    lookupEntry (recordEntry log e) e.handle = some e := by
  simp [lookupEntry, recordEntry, List.find?]

/-- C8: two submissions with the same prompt, image and bucket build model_input
values that agree on every field except videoGenerationConfig.seed; a different
seed gives a different request, and distinct seeds exist in the drawn range, so
the two submitted requests may differ and each call creates a fresh job. -/
theorem modelInput_differs_only_in_seed (p img : String) (s1 s2 : Int)
    (h1 : possibleSeed s1) (h2 : possibleSeed s2) :
    ((mkModelInput p img s1).taskType = (mkModelInput p img s2).taskType ∧
     (mkModelInput p img s1).textToVideoParams =
       (mkModelInput p img s2).textToVideoParams ∧
     (mkModelInput p img s1).videoGenerationConfig.durationSeconds =
       (mkModelInput p img s2).videoGenerationConfig.durationSeconds ∧
     (mkModelInput p img s1).videoGenerationConfig.fps =
       (mkModelInput p img s2).videoGenerationConfig.fps ∧
     (mkModelInput p img s1).videoGenerationConfig.dimension =
       (mkModelInput p img s2).videoGenerationConfig.dimension) ∧
    (s1 ≠ s2 → mkModelInput p img s1 ≠ mkModelInput p img s2) ∧
    (∃ t1 t2, possibleSeed t1 ∧ possibleSeed t2 ∧
      mkModelInput p img t1 ≠ mkModelInput p img t2) := by
  refine ⟨⟨rfl, rfl, rfl, rfl, rfl⟩, ?_, 0, 1, by decide, by decide, ?_⟩
  · intro hne hEq
    exact hne (congrArg (fun m => m.videoGenerationConfig.seed) hEq)
  · intro hEq
    have : (0 : Int) = 1 := congrArg (fun m => m.videoGenerationConfig.seed) hEq
    exact absurd this (by decide)

/-- Witness for C8 at the notebook's example prompt with seeds 0 and 2147483648. -/
theorem modelInput_differs_only_in_seed_witness :
    ((mkModelInput "dolly forward" "imgbytes" 0).taskType =
       (mkModelInput "dolly forward" "imgbytes" 2147483648).taskType ∧
     (mkModelInput "dolly forward" "imgbytes" 0).textToVideoParams =
       (mkModelInput "dolly forward" "imgbytes" 2147483648).textToVideoParams ∧
     (mkModelInput "dolly forward" "imgbytes" 0).videoGenerationConfig.durationSeconds =
       (mkModelInput "dolly forward" "imgbytes" 2147483648).videoGenerationConfig.durationSeconds ∧
     (mkModelInput "dolly forward" "imgbytes" 0).videoGenerationConfig.fps =
       (mkModelInput "dolly forward" "imgbytes" 2147483648).videoGenerationConfig.fps ∧
     (mkModelInput "dolly forward" "imgbytes" 0).videoGenerationConfig.dimension =
       (mkModelInput "dolly forward" "imgbytes" 2147483648).videoGenerationConfig.dimension) ∧
    ((0 : Int) ≠ 2147483648 →
      mkModelInput "dolly forward" "imgbytes" 0 ≠
        mkModelInput "dolly forward" "imgbytes" 2147483648) ∧
    (∃ t1 t2, possibleSeed t1 ∧ possibleSeed t2 ∧
      mkModelInput "dolly forward" "imgbytes" t1 ≠
        mkModelInput "dolly forward" "imgbytes" t2) :=
  modelInput_differs_only_in_seed "dolly forward" "imgbytes" 0 2147483648
    (by decide) (by decide)

/-- C10: every possible seed lies in the inclusive range 0 .. 2147483648, the
endpoint 2147483648 = 2 ^ 31 itself is a possible seed (random.randint includes
both endpoints), and the other generation parameters are the fixed constants
durationSeconds 6, fps 24, dimension "1280x720". -/
theorem seed_range_inclusive (s : Int) (h : possibleSeed s) :
    (0 ≤ s ∧ s ≤ 2147483648) ∧
    possibleSeed 2147483648 ∧
    ((2147483648 : Int) = 2 ^ 31) ∧
    (∀ p img t, (mkModelInput p img t).videoGenerationConfig.durationSeconds = 6 ∧
      (mkModelInput p img t).videoGenerationConfig.fps = 24 ∧
      (mkModelInput p img t).videoGenerationConfig.dimension = "1280x720" ∧
      (mkModelInput p img t).videoGenerationConfig.seed = t) := by
  exact ⟨h, by decide, by decide, fun p img t => ⟨rfl, rfl, rfl, rfl⟩⟩

/-- Witness for C10 at the upper endpoint seed 2147483648. -/
theorem seed_range_inclusive_witness :
    ((0 : Int) ≤ 2147483648 ∧ (2147483648 : Int) ≤ 2147483648) ∧
    possibleSeed 2147483648 ∧
    ((2147483648 : Int) = 2 ^ 31) ∧
    (∀ p img t, (mkModelInput p img t).videoGenerationConfig.durationSeconds = 6 ∧
      (mkModelInput p img t).videoGenerationConfig.fps = 24 ∧
      (mkModelInput p img t).videoGenerationConfig.dimension = "1280x720" ∧
      (mkModelInput p img t).videoGenerationConfig.seed = t) :=
  seed_range_inclusive 2147483648 (by decide)

/-- C3 counterexample: submitting the 600-character prompt does not raise any
error before the remote call — the remote service is invoked (once) and the
submission even succeeds, so no client-side validation of the 512-character
bound exists. -/
theorem no_clientside_length_check :
    prompt600.length = 600 ∧
    (submitCell remoteOkStub ledgerOkStub prompt600 "img" 0).remoteCalls = 1 ∧
    (submitCell remoteOkStub ledgerOkStub prompt600 "img" 0).raised = false ∧
    (submitCell remoteOkStub ledgerOkStub prompt600 "img" 0).invocationArn =
      some "arn-123" := by
  refine ⟨?_, rfl, rfl, rfl⟩
  have h1 : prompt600.length = (List.replicate 600 'a').length := rfl
  rw [h1, List.length_replicate]

/-- Auxiliary: the prompt600 stub really is longer than 512 characters. -/
theorem prompt600_long : 512 < prompt600.length := by
  have h1 : prompt600.length = (List.replicate 600 'a').length := rfl
  rw [h1, List.length_replicate]
  omega

/-- C3 amended: the notebook performs no client-side prompt-length validation;
even a prompt longer than 512 characters is forwarded unchanged to the remote
service, which is invoked exactly once, and nothing is raised beforehand. -/
theorem overlong_prompt_still_submitted
    (remote : ModelInput → Except String Invocation)
    (ledger : Invocation → ModelInput → Except String Unit)
    (p img : String) (s : Int) (h : 512 < p.length) :
    (submitCell remote ledger p img s).remoteCalls = 1 ∧
    (mkModelInput p img s).textToVideoParams.text = p ∧
    (submitCell remote ledger p img s).raised = false := by
  refine ⟨?_, rfl, ?_⟩ <;>
  · unfold submitCell
    cases hr : remote (mkModelInput p img s) with
    | ok inv =>
      cases hl : ledger inv (mkModelInput p img s) with
      | ok u => simp [hl]
      | error e => simp [hl]
    | error e => simp

/-- Witness for C3's amended theorem at the 600-character prompt. -/
theorem overlong_prompt_still_submitted_witness :
    (submitCell remoteOkStub ledgerOkStub prompt600 "img" 0).remoteCalls = 1 ∧
    (mkModelInput prompt600 "img" 0).textToVideoParams.text = prompt600 ∧
    (submitCell remoteOkStub ledgerOkStub prompt600 "img" 0).raised = false :=
  overlong_prompt_still_submitted remoteOkStub ledgerOkStub prompt600 "img" 0
    prompt600_long

/-- C4 counterexample: a failing submission is caught by the cell's try/except
and logged via logger.error — no exception propagates to the caller, so the
submission error is swallowed (loudly), not propagated. -/
theorem submission_error_not_propagated :
    (submitCell remoteFailStub ledgerOkStub "dolly forward" "img" 0).raised = false ∧
    (submitCell remoteFailStub ledgerOkStub "dolly forward" "img" 0).log =
      [LogEntry.error "transport failure"] ∧
    (submitCell remoteFailStub ledgerOkStub "dolly forward" "img" 0).invocationArn =
      none :=
  ⟨rfl, rfl, rfl⟩

/-- C4 amended: a submission error is surfaced immediately in the log via
logger.error, the remote call is made exactly once (no silent retry) and the
cell stops there without binding a handle — but the exception is caught, not
propagated; a fetch error in the (spec-modelled) monitor flow is surfaced
immediately as the outcome with the Fetcher invoked exactly once. -/
theorem errors_surfaced_once :
    (∀ remote ledger p img s e,
      remote (mkModelInput p img s) = Except.error e →
      submitCell remote ledger p img s =
        { invocationArn := none, remoteCalls := 1,
          log := [LogEntry.error e], raised := false }) ∧
    (∀ poll bound fetch fuel k r uri e,
      retryQuery (poll k) bound = Except.ok r →
      r.status = Status.completed → r.outputUri = some uri →
      fetch uri = Except.error e →
      monitorAndDownload poll bound fetch (fuel + 1) k =
        (MonitorOutcome.fetchError e, 1)) := by
  constructor
  · intro remote ledger p img s e hr
    simp [submitCell, hr]
  · intro poll bound fetch fuel k r uri e hq hs hu hf
    simp [monitorAndDownload, retryQuery] at hq ⊢
    simp [hq, hs, hu, hf]

/-- Witness for C4's amended theorem: a failing remote call and a failing fetch
at concrete inputs. -/
theorem errors_surfaced_once_witness :
    submitCell remoteFailStub ledgerOkStub "dolly forward" "img" 0 =
      { invocationArn := none, remoteCalls := 1,
        log := [LogEntry.error "transport failure"], raised := false } ∧
    monitorAndDownload
      (fun _ _ => Except.ok
        { status := Status.completed, failureReason := none,
          outputUri := some "s3-uri" })
      1 (fun _ => Except.error "FetchError") (0 + 1) 0 =
      (MonitorOutcome.fetchError "FetchError", 1) :=
  ⟨(errors_surfaced_once).1 remoteFailStub ledgerOkStub "dolly forward" "img" 0
      "transport failure" rfl,
    (errors_surfaced_once).2
      (fun _ _ => Except.ok
        { status := Status.completed, failureReason := none,
          outputUri := some "s3-uri" })
      1 (fun _ => Except.error "FetchError") 0 0
      { status := Status.completed, failureReason := none,
        outputUri := some "s3-uri" }
      "s3-uri" "FetchError" rfl rfl rfl rfl⟩

/-- C1: for every request, the Job Submitter either returns a Job whose handle
is the remote service's (non-empty) invocationArn with status IN_PROGRESS, or
fails with SubmissionError; it never returns a Job whose status is terminal
(COMPLETED or FAILED). -/
theorem submitter_inProgress_or_error
    (remote : ModelInput → Except String Invocation) (mi : ModelInput)
    (hArn : ∀ inv, remote mi = Except.ok inv → inv.invocationArn ≠ "") :
    ((∃ j, jobSubmitter remote mi = SubmitResult.job j ∧ j.handle ≠ "" ∧
        j.status = Status.inProgress) ∨
      (∃ e, jobSubmitter remote mi = SubmitResult.submissionError e)) ∧
    (∀ j, jobSubmitter remote mi = SubmitResult.job j →
      j.status.isTerminal = false) := by
  unfold jobSubmitter
  cases hr : remote mi with
  | ok inv =>
    refine ⟨Or.inl ⟨_, rfl, hArn inv hr, rfl⟩, ?_⟩
    intro j hj
    have hj2 : ({ handle := inv.invocationArn, status := Status.inProgress } : Job) = j := by
      injection hj
    rw [← hj2]
    rfl
  | error e =>
    refine ⟨Or.inr ⟨e, rfl⟩, ?_⟩
    intro j hj
    cases hj

/-- Witness for C1 at a remote service that returns the handle "arn-123". -/
theorem submitter_inProgress_or_error_witness :
    ((∃ j, jobSubmitter remoteOkStub miStub = SubmitResult.job j ∧ j.handle ≠ "" ∧
        j.status = Status.inProgress) ∨
      (∃ e, jobSubmitter remoteOkStub miStub = SubmitResult.submissionError e)) ∧
    (∀ j, jobSubmitter remoteOkStub miStub = SubmitResult.job j →
      j.status.isTerminal = false) :=
  submitter_inProgress_or_error remoteOkStub miStub (by
    intro inv h
    have h2 : ({ invocationArn := "arn-123" } : Invocation) = inv := by
      injection h
    rw [← h2]
    decide)

/-- C7: the Invocation Ledger is an append-only log keyed by handle — record and
update only append, every existing entry survives them — and no ledger failure
is fatal to the primary flow: the submission cell's resulting handle does not
depend on the ledger's behavior, and a failing save_invocation_info is logged
via logger.error while the cell still completes with the handle bound and
nothing raised. -/
theorem ledger_append_only_and_nonfatal :
    (∀ log e, recordEntry log e = log ++ [e]) ∧
    (∀ log h p, updateEntry log h p = log ++ [{ handle := h, payload := p }]) ∧
    (∀ log e x, x ∈ log → x ∈ recordEntry log e) ∧
    (∀ log h p x, x ∈ log → x ∈ updateEntry log h p) ∧
    (∀ remote led1 led2 p img s,
      (submitCell remote led1 p img s).invocationArn =
        (submitCell remote led2 p img s).invocationArn) ∧
    (∀ remote led p img s inv e,
      remote (mkModelInput p img s) = Except.ok inv →
      led inv (mkModelInput p img s) = Except.error e →
      (submitCell remote led p img s).invocationArn = some inv.invocationArn ∧
      LogEntry.error e ∈ (submitCell remote led p img s).log ∧
      (submitCell remote led p img s).raised = false) := by
  refine ⟨fun log e => rfl, fun log h p => rfl, ?_, ?_, ?_, ?_⟩
  · intro log e x hx
    exact List.mem_append_left _ hx
  · intro log h p x hx
    exact List.mem_append_left _ hx
  · intro remote led1 led2 p img s
    unfold submitCell
    cases hr : remote (mkModelInput p img s) with
    | ok inv =>
      cases h1 : led1 inv (mkModelInput p img s) with
      | ok u =>
        cases h2 : led2 inv (mkModelInput p img s) with
        | ok v => simp [h1, h2]
        | error e2 => simp [h1, h2]
      | error e1 =>
        cases h2 : led2 inv (mkModelInput p img s) with
        | ok v => simp [h1, h2]
        | error e2 => simp [h1, h2]
    | error e => simp
  · intro remote led p img s inv e hr hl
    unfold submitCell
    simp [hr, hl]

/-- Witness for C7: a concrete log and entry, and the submission cell run with a
remote that succeeds but a save_invocation_info that fails. -/
theorem ledger_append_only_and_nonfatal_witness :
    ({ handle := "arn-123", payload := "req" } : LedgerEntry) ∈
      recordEntry [{ handle := "old", payload := "o" }]
        { handle := "arn-123", payload := "req" } ∧
    (submitCell remoteOkStub ledgerFailStub "dolly forward" "img" 0).invocationArn =
      some "arn-123" ∧
    LogEntry.error "disk full" ∈
      (submitCell remoteOkStub ledgerFailStub "dolly forward" "img" 0).log ∧
    (submitCell remoteOkStub ledgerFailStub "dolly forward" "img" 0).raised = false := by
  have h := (ledger_append_only_and_nonfatal).2.2.2.2.2 remoteOkStub ledgerFailStub
    "dolly forward" "img" 0 { invocationArn := "arn-123" } "disk full" rfl rfl
  exact ⟨by decide, h.1, h.2.1, h.2.2⟩

/-- Out of a terminal status the Job state machine only allows staying put. -/
theorem jobStep_terminal (s t : Status) (hs : s.isTerminal = true)
    (hstep : jobStep s t = true) : t = s := by
  cases s <;> cases t <;> simp_all [Status.isTerminal, jobStep]

/-- A valid trace never changes again after reaching a terminal status. -/
theorem validTrace_terminal_add (tr : Nat → Status) (hv : ValidTrace tr) (m : Nat)
    (hm : (tr m).isTerminal = true) : ∀ k, tr (m + k) = tr m := by
  intro k
  induction k with
  | zero => rfl
  | succ k ih =>
    have hstep := hv (m + k)
    rw [ih] at hstep
    exact jobStep_terminal (tr m) (tr (m + k + 1)) hm hstep

/-- Unfolding pollSequence when the queried status is terminal. -/
theorem pollSequence_succ_terminal (query : Nat → PollResult) (fuel k : Nat)
    (hq : (query k).status.isTerminal = true) :
    pollSequence query (fuel + 1) k = [query k] := by
  simp [pollSequence, hq]

/-- Unfolding pollSequence when the queried status is not terminal. -/
theorem pollSequence_succ_continues (query : Nat → PollResult) (fuel k : Nat)
    (hq : (query k).status.isTerminal = false) :
    pollSequence query (fuel + 1) k = query k :: pollSequence query fuel (k + 1) := by
  simp [pollSequence, hq]

/-- Nothing follows a terminal value in a PollResult sequence. -/
theorem pollSequence_terminal_last (query : Nat → PollResult) :
    ∀ (fuel k : Nat) (l1 l2 : List PollResult) (r : PollResult),
      pollSequence query fuel k = l1 ++ r :: l2 →
      r.status.isTerminal = true → l2 = [] := by
  intro fuel
  induction fuel with
  | zero =>
    intro k l1 l2 r h ht
    simp [pollSequence] at h
  | succ fuel ih =>
    intro k l1 l2 r h ht
    by_cases hq : (query k).status.isTerminal = true
    · rw [pollSequence_succ_terminal query fuel k hq] at h
      cases l1 with
      | nil =>
        rw [List.nil_append] at h
        injection h with ha hb
        exact hb.symm
      | cons a l1' =>
        rw [List.cons_append] at h
        injection h with ha hb
        exact absurd hb.symm (by simp)
    · have hq' : (query k).status.isTerminal = false := by
        cases hb : (query k).status.isTerminal
        · rfl
        · exact absurd hb hq
      rw [pollSequence_succ_continues query fuel k hq'] at h
      cases l1 with
      | nil =>
        rw [List.nil_append] at h
        injection h with ha hb
        rw [← ha] at ht
        exact absurd (hq'.symm.trans ht) (by decide)
      | cons a l1' =>
        rw [List.cons_append] at h
        injection h with ha hb
        exact ih (k + 1) l1' l2 r hb ht

/-- C2: a job that has reached a terminal state never changes again in any
trace allowed by the state machine (so it transitions at most once out of
IN_PROGRESS and never re-enters it), and in every PollResult sequence produced
for one handle nothing follows a terminal value — the sequence is exhausted
after it. -/
theorem terminal_is_absorbing :
    (∀ tr, ValidTrace tr → ∀ m n, m ≤ n → (tr m).isTerminal = true → tr n = tr m) ∧
    (∀ (query : Nat → PollResult) (fuel k : Nat) (l1 l2 : List PollResult)
      (r : PollResult),
      pollSequence query fuel k = l1 ++ r :: l2 →
      r.status.isTerminal = true → l2 = []) := by
  constructor
  · intro tr hv m n hmn hm
    obtain ⟨k, rfl⟩ := Nat.exists_eq_add_of_le hmn
    exact validTrace_terminal_add tr hv m hm k
  · intro query fuel k l1 l2 r h ht
    exact pollSequence_terminal_last query fuel k l1 l2 r h ht

/-- A status query that reports IN_PROGRESS twice and then COMPLETED. -/
def queryStub : Nat → PollResult :=
  fun k =>
    if k < 2 then { status := Status.inProgress, failureReason := none, outputUri := none }
    else { status := Status.completed, failureReason := none, outputUri := some "uri" }

/-- Witness for C2: a trace that is COMPLETED from the start stays COMPLETED,
and the three-element poll sequence of queryStub has nothing after its
terminal value. -/
theorem terminal_is_absorbing_witness :
    (fun _ => Status.completed : Nat → Status) 3 =
      (fun _ => Status.completed : Nat → Status) 0 ∧
    ([] : List PollResult) = [] :=
  ⟨(terminal_is_absorbing).1 (fun _ => Status.completed) (fun _ => rfl) 0 3
      (by omega) rfl,
    (terminal_is_absorbing).2 queryStub 5 0
      [{ status := Status.inProgress, failureReason := none, outputUri := none },
        { status := Status.inProgress, failureReason := none, outputUri := none }]
      []
      { status := Status.completed, failureReason := none, outputUri := some "uri" }
      (by decide) rfl⟩

/-- If the first k attempts fail and attempt k succeeds within the budget, the
retry loop returns that success. -/
theorem retryFrom_reaches (attempts : Nat → Except String PollResult) :
    ∀ (k fuel i : Nat) (r : PollResult),
      (∀ j, j < k → ∃ e, attempts (i + j) = Except.error e) →
      attempts (i + k) = Except.ok r → k < fuel →
      retryFrom attempts fuel i = Except.ok r := by
  intro k
  induction k with
  | zero =>
    intro fuel i r _ hok hk
    cases fuel with
    | zero => omega
    | succ f =>
      rw [Nat.add_zero] at hok
      simp [retryFrom, hok]
  | succ k ih =>
    intro fuel i r hfail hok hk
    cases fuel with
    | zero => omega
    | succ f =>
      obtain ⟨e, he⟩ := hfail 0 (Nat.succ_pos k)
      rw [Nat.add_zero] at he
      simp only [retryFrom, he]
      apply ih f (i + 1) r
      · intro j hj
        obtain ⟨e2, he2⟩ := hfail (j + 1) (by omega)
        refine ⟨e2, ?_⟩
        rw [show i + 1 + j = i + (j + 1) by omega]
        exact he2
      · rw [show i + 1 + k = i + (k + 1) by omega]
        exact hok
      · omega

/-- When every attempt fails, the retry loop surfaces a PollError. -/
theorem retryFrom_exhausted (attempts : Nat → Except String PollResult)
    (hall : ∀ j, ∃ e, attempts j = Except.error e) :
    ∀ (fuel i : Nat), retryFrom attempts fuel i = Except.error "PollError" := by
  intro fuel
  induction fuel with
  | zero => intro i; rfl
  | succ f ih =>
    intro i
    obtain ⟨e, he⟩ := hall i
    simp only [retryFrom, he]
    exact ih (i + 1)

/-- Whenever the monitor flow reports a FAILED job, the Artifact Fetcher was
invoked zero times. -/
theorem monitor_generationFailed_no_fetch
    (poll : Nat → Nat → Except String PollResult) (bound : Nat)
    (fetch : String → Except String String) :
    ∀ (fuel k : Nat) (reason : Option String),
      (monitorAndDownload poll bound fetch fuel k).1 =
        MonitorOutcome.generationFailed reason →
      (monitorAndDownload poll bound fetch fuel k).2 = 0 := by
  intro fuel
  induction fuel with
  | zero => intro k reason _; rfl
  | succ f ih =>
    intro k reason h
    cases hq : retryQuery (poll k) bound with
    | error e => simp [monitorAndDownload, hq]
    | ok r =>
      cases hs : r.status with
      | inProgress =>
        have hrec : monitorAndDownload poll bound fetch (f + 1) k =
            monitorAndDownload poll bound fetch f (k + 1) := by
          simp [monitorAndDownload, hq, hs]
        rw [hrec] at h ⊢
        exact ih (k + 1) reason h
      | failed => simp [monitorAndDownload, hq, hs]
      | completed =>
        cases hu : r.outputUri with
        | none => simp [monitorAndDownload, hq, hs, hu] at h
        | some uri =>
          cases hf : fetch uri with
          | ok p => simp [monitorAndDownload, hq, hs, hu, hf] at h
          | error e => simp [monitorAndDownload, hq, hs, hu, hf] at h

/-- C5: transient query errors are retried internally — fewer failures than the
bound followed by a success surface no error, while a full budget of failures
surfaces a PollError; a terminal FAILED status is returned as the terminal
value carrying its failure reason, never raised; and whenever the outcome is a
FAILED job the Artifact Fetcher was never invoked. -/
theorem poller_retry_and_failed_semantics :
    (∀ (attempts : Nat → Except String PollResult) (k bound : Nat)
      (r : PollResult),
      (∀ j, j < k → ∃ e, attempts j = Except.error e) →
      attempts k = Except.ok r → k < bound →
      retryQuery attempts bound = Except.ok r) ∧
    (∀ (attempts : Nat → Except String PollResult) (bound : Nat),
      (∀ j, ∃ e, attempts j = Except.error e) →
      retryQuery attempts bound = Except.error "PollError") ∧
    (∀ poll bound fetch fuel k (r : PollResult),
      retryQuery (poll k) bound = Except.ok r → r.status = Status.failed →
      monitorAndDownload poll bound fetch (fuel + 1) k =
        (MonitorOutcome.generationFailed r.failureReason, 0)) ∧
    (∀ poll bound fetch fuel k (reason : Option String),
      (monitorAndDownload poll bound fetch fuel k).1 =
        MonitorOutcome.generationFailed reason →
      (monitorAndDownload poll bound fetch fuel k).2 = 0) := by
  refine ⟨?_, ?_, ?_, ?_⟩
  · intro attempts k bound r hfail hok hk
    refine retryFrom_reaches attempts k bound 0 r ?_ ?_ hk
    · intro j hj
      simpa using hfail j hj
    · simpa using hok
  · intro attempts bound hall
    exact retryFrom_exhausted attempts hall bound 0
  · intro poll bound fetch fuel k r hq hs
    simp [monitorAndDownload, hq, hs]
  · intro poll bound fetch fuel k reason h
    exact monitor_generationFailed_no_fetch poll bound fetch fuel k reason h

/-- Attempts that fail twice transiently and then succeed. -/
def flakyAttempts : Nat → Except String PollResult :=
  fun i =>
    if i < 2 then Except.error "network"
    else Except.ok { status := Status.inProgress, failureReason := none, outputUri := none }

/-- Attempts that always fail. -/
def downAttempts : Nat → Except String PollResult :=
  fun _ => Except.error "network"

/-- A remote job that reports FAILED with a content-policy reason. -/
def failedPoll : Nat → Nat → Except String PollResult :=
  fun _ _ => Except.ok
    { status := Status.failed, failureReason := some "content policy violation",
      outputUri := none }

/-- A fetcher stub that always succeeds. -/
def fetchStub : String → Except String String :=
  fun _ => Except.ok "output/video.mp4"

/-- Witness for C5: two transient failures then success inside a budget of 3
surface no error; a fully failing query surfaces PollError; a FAILED job is
reported with its reason and zero Fetcher invocations. -/
theorem poller_retry_and_failed_semantics_witness :
    retryQuery flakyAttempts 3 = Except.ok
      { status := Status.inProgress, failureReason := none, outputUri := none } ∧
    retryQuery downAttempts 3 = Except.error "PollError" ∧
    monitorAndDownload failedPoll 3 fetchStub (4 + 1) 0 =
      (MonitorOutcome.generationFailed (some "content policy violation"), 0) ∧
    (monitorAndDownload failedPoll 3 fetchStub 5 0).2 = 0 :=
  ⟨(poller_retry_and_failed_semantics).1 flakyAttempts 2 3
      { status := Status.inProgress, failureReason := none, outputUri := none }
      (fun j hj => ⟨"network", by simp [flakyAttempts, hj]⟩) rfl (by omega),
    (poller_retry_and_failed_semantics).2.1 downAttempts 3
      (fun _ => ⟨"network", rfl⟩),
    (poller_retry_and_failed_semantics).2.2.1 failedPoll 3 fetchStub 4 0
      { status := Status.failed, failureReason := some "content policy violation",
        outputUri := none }
      rfl rfl,
    (poller_retry_and_failed_semantics).2.2.2 failedPoll 3 fetchStub 5 0
      (some "content policy violation") (by decide)⟩

/-- Streaming into the temporary file never touches the destination. -/
theorem writeChunks_dest (chunks : List (List Nat)) :
    ∀ (st s : FsState), s ∈ writeChunks chunks st → s.dest = st.dest := by
  induction chunks with
  | nil =>
    intro st s hs
    simp [writeChunks] at hs
  | cons c rest ih =>
    intro st s hs
    simp only [writeChunks, List.mem_cons] at hs
    cases hs with
    | inl h => rw [h]
    | inr h =>
      have h2 := ih { temp := st.temp ++ c, dest := st.dest } s h
      exact h2

/-- Unfolding fetchStates for a full, uninterrupted transfer. -/
theorem fetchStates_some_true_none (chunks : List (List Nat)) :
    fetchStates (some chunks) true none =
      ({ temp := [], dest := none } : FsState) ::
        (writeChunks chunks { temp := [], dest := none } ++
          [{ temp := [], dest := some chunks.flatten }]) := by
  simp [fetchStates]

/-- Unfolding fetchStates when the interruption point lies past the transfer. -/
theorem fetchStates_some_true_late (chunks : List (List Nat)) (i : Nat)
    (hi : ¬ i < chunks.length) :
    fetchStates (some chunks) true (some i) =
      ({ temp := [], dest := none } : FsState) ::
        (writeChunks chunks { temp := [], dest := none } ++
          [{ temp := [], dest := some chunks.flatten }]) := by
  simp [fetchStates, hi]

/-- Unfolding fetchStates for a transfer interrupted after i chunks. -/
theorem fetchStates_some_true_interrupted (chunks : List (List Nat)) (i : Nat)
    (hi : i < chunks.length) :
    fetchStates (some chunks) true (some i) =
      ({ temp := [], dest := none } : FsState) ::
        writeChunks (chunks.take i) { temp := [], dest := none } := by
  simp [fetchStates, hi]

/-- Every state of a completed transfer trace has the destination absent or
holding the full artifact. -/
theorem trace_dest_none_or_full (chunks : List (List Nat)) (st : FsState)
    (hst : st ∈ ({ temp := [], dest := none } : FsState) ::
      (writeChunks chunks { temp := [], dest := none } ++
        [{ temp := [], dest := some chunks.flatten }])) :
    st.dest = none ∨ st.dest = some chunks.flatten := by
  simp only [List.mem_cons, List.mem_append, List.mem_singleton] at hst
  rcases hst with h | h | h | h
  · left
    rw [h]
  · left
    exact writeChunks_dest chunks _ st h
  · right
    rw [h]
  · simp at h

/-- C6: at every observable point of a fetch the destination file is either
absent or the full artifact, never partially written; a missing remote object,
an unwritable local path or an interrupted transfer yields a FetchError; and a
fetch is exactly one transfer attempt, never retried automatically. -/
theorem fetch_atomic_visibility (ro : Option (List (List Nat))) (w : Bool)
    (ia : Option Nat) :
    (∀ st, st ∈ fetchStates ro w ia →
      st.dest = none ∨ ∃ chunks, ro = some chunks ∧ st.dest = some chunks.flatten) ∧
    (ro = none → fetchResult ro w ia = Except.error "FetchError: missing remote object") ∧
    (∀ chunks, ro = some chunks → w = false →
      fetchResult ro w ia = Except.error "FetchError: unwritable local path") ∧
    (∀ chunks i, ro = some chunks → w = true → ia = some i → i < chunks.length →
      fetchResult ro w ia = Except.error "FetchError: transfer interrupted") ∧
    fetchAttempts ro w ia = 1 := by
  refine ⟨?_, ?_, ?_, ?_, rfl⟩
  · intro st hst
    cases ro with
    | none =>
      simp [fetchStates] at hst
      left
      rw [hst]
    | some chunks =>
      cases w with
      | false =>
        simp [fetchStates] at hst
        left
        rw [hst]
      | true =>
        cases ia with
        | none =>
          rw [fetchStates_some_true_none chunks] at hst
          rcases trace_dest_none_or_full chunks st hst with h | h
          · exact Or.inl h
          · exact Or.inr ⟨chunks, rfl, h⟩
        | some i =>
          by_cases hi : i < chunks.length
          · rw [fetchStates_some_true_interrupted chunks i hi] at hst
            rcases List.mem_cons.mp hst with h | h
            · left
              rw [h]
            · left
              exact writeChunks_dest (chunks.take i) _ st h
          · rw [fetchStates_some_true_late chunks i hi] at hst
            rcases trace_dest_none_or_full chunks st hst with h | h
            · exact Or.inl h
            · exact Or.inr ⟨chunks, rfl, h⟩
  · intro h
    subst h
    rfl
  · intro chunks hro hw
    subst hro
    subst hw
    rfl
  · intro chunks i hro hw hia hi
    subst hro
    subst hw
    subst hia
    simp [fetchResult, hi]

/-- Witness for C6: a two-chunk artifact interrupted after one chunk — the mid-
transfer state has the destination absent — plus the three failure modes and
the single-attempt bound at concrete inputs. -/
theorem fetch_atomic_visibility_witness :
    (({ temp := [1, 2], dest := none } : FsState).dest = none ∨
      ∃ chunks, (some [[1, 2], [3]] : Option (List (List Nat))) = some chunks ∧
        ({ temp := [1, 2], dest := none } : FsState).dest = some chunks.flatten) ∧
    fetchResult none true none = Except.error "FetchError: missing remote object" ∧
    fetchResult (some [[1, 2], [3]]) false none =
      Except.error "FetchError: unwritable local path" ∧
    fetchResult (some [[1, 2], [3]]) true (some 1) =
      Except.error "FetchError: transfer interrupted" ∧
    fetchAttempts (some [[1, 2], [3]]) true (some 1) = 1 :=
  ⟨(fetch_atomic_visibility (some [[1, 2], [3]]) true (some 1)).1
      { temp := [1, 2], dest := none } (by decide),
    (fetch_atomic_visibility none true none).2.1 rfl,
    (fetch_atomic_visibility (some [[1, 2], [3]]) false none).2.2.1
      [[1, 2], [3]] rfl rfl,
    (fetch_atomic_visibility (some [[1, 2], [3]]) true (some 1)).2.2.2.1
      [[1, 2], [3]] 1 rfl rfl rfl (by decide),
    (fetch_atomic_visibility (some [[1, 2], [3]]) true (some 1)).2.2.2.2⟩

end NovaReel
